import Mathlib

/-!
# Verification of the rescataditos-whatsappbot conversational intake core

A shallow embedding, in Lean 4, of the WhatsApp intake / confirmation
subsystem of the repository (src/app/handlers and src/app/services).
Every definition below is translated from a named Python function of the
source tree; deviations forced by the embedding (external services such as
OpenAI, psycopg2 and the WhatsApp transport are parameters; side effects
become explicit effect lists) are recorded in the doc comment of the
definition concerned.

The repository is visibly mid-refactor: `message_handler.py` holds the
older `MessageHandler` base class and `MessageProcessorOrchestrator`, while
`MessageProcessorOrchestrator.py`, `confirmation_manager.py` and the
per-type handlers were already updated for a newer base-class contract.
Both generations are embedded where a claim touches them.
-/

namespace Rescataditos

/-! ## Python string semantics

Kernel-reducible counterparts of the Python `str` operations used by the
detectors: `lower()`, `strip()`, `startswith`, and the substring test
performed by the `in` operator. They operate on `String.data` so that
`decide` can evaluate them. `Char.toLower`/`Char.toUpper` only move ASCII
letters, which agrees with Python on every string these proofs evaluate. -/

def pyLower (s : String) : String :=
  ⟨s.data.map Char.toLower⟩

def pyUpper (s : String) : String :=
  ⟨s.data.map Char.toUpper⟩

/-- Python `str.strip()` restricted to the blank character, the only
whitespace occurring in the embedded inputs. -/
def pyStrip (s : String) : String :=
  ⟨((s.data.dropWhile (fun c => c = ' ')).reverse.dropWhile (fun c => c = ' ')).reverse⟩

/-- Python `pre + " "`-style `text.startswith(pre)`. -/
def pyStartsWith (s pre : String) : Bool :=
  pre.data.isPrefixOf s.data

/-- Python `pat in s` (substring containment). -/
def pyContains (pat s : String) : Bool :=
  s.data.tails.any (fun t => pat.data.isPrefixOf t)

/-- Python truthiness of an optional string (`None` and `""` are falsy). -/
def strTruthy : Option String → Bool
  | none => false
  | some s => !s.isEmpty

/-! ## Inbound WhatsApp messages

`app/handlers/message_handler.py` and `confirmation_manager.py` read the
webhook dict through `message.get("type")`, `message["text"]["body"]`,
`message["interactive"]["button_reply"]["id"]`, `message["image"]` and
`message["audio"]`; the constructors below carry exactly those payloads. -/

inductive WaMessage
  | text (body : String)
  | interactive (buttonReplyId : Option String)
  | image (mediaId : String) (caption : Option String)
  | audio (mediaId : String)
  | other (ty : String)
deriving DecidableEq, Repr

/-! ## Confirm / cancel keyword sets

`confirmation_manager.py` lines 81 and 87 and `message_handler.py` lines
369-370 hard-code the same two closed keyword lists. -/

def confirmacionPalabras : List String :=
  [("sí"), ("si"), ("yes"), ("yep"), ("ok"), ("okay"), ("confirmar"), ("confirm"),
   ("adelante"), ("go")]

def cancelacionPalabras : List String :=
  [("no"), ("nope"), ("cancelar"), ("cancel"), ("no gracias"), ("no thanks"), ("abortar")]

inductive UserResponse
  | confirmed
  | cancelled
deriving DecidableEq, Repr

/-- `text.lower().strip()` as `ConfirmationManager._detect_user_response`
normalizes the body before matching. -/
def pyNormalize (s : String) : String :=
  pyStrip (pyLower s)

/-- The whole-word-or-prefix rule of
`ConfirmationManager._detect_user_response` (confirmation_manager.py lines
83 and 89): `text in words or any(text.startswith(w + " ") for w in words)`. -/
def matchesKeyword (ws : List String) (t : String) : Bool :=
  ws.contains t || ws.any (fun p => pyStartsWith t (p ++ (" ")))

/-- `ConfirmationManager._detect_user_response` (confirmation_manager.py
lines 66-92): a structured button reply with id `confirm_yes` /
`confirm_no` is decided first; otherwise the lower-cased, stripped text
body is matched against the closed keyword sets, exact or
keyword-plus-space prefix; anything else yields no signal. -/
def detectUserResponse : WaMessage → Option UserResponse
  | WaMessage.interactive bid =>
      if bid = some ("confirm_yes") then some UserResponse.confirmed
      else if bid = some ("confirm_no") then some UserResponse.cancelled
      else none
  | WaMessage.text body =>
      let text := pyNormalize body
      if matchesKeyword confirmacionPalabras text then some UserResponse.confirmed
      else if matchesKeyword cancelacionPalabras text then some UserResponse.cancelled
      else none
  | _ => none

/-! ## Field bundles and typed details

`app/models/analysis.py` defines the pydantic models. A serialized bundle
(`detalles.dict()`) is embedded as an association list from field name to a
`FieldVal`; `FieldVal.null` stands for Python `None`, so `dict()` versus
`dict(exclude_none=True)` is `id` versus filtering the null entries. -/

structure ColorDePelo where
  color : String
  porcentaje : Int
deriving DecidableEq, Repr

structure CambioEstadoInfo where
  ubicacion_id : Int
  estado_id : Int
  persona : String
  tipo_relacion_id : Int
deriving DecidableEq, Repr

inductive FieldVal
  | null
  | s (v : String)
  | colorList (v : List ColorDePelo)
  | cambioEstado (v : CambioEstadoInfo)
deriving DecidableEq, Repr

abbrev FieldBundle := List (String × FieldVal)

/-- `NuevoRescateDetails` (models/analysis.py lines 34-41). Every field is
optional here because the handler validation (`nuevo_rescate.py` lines
36-46) checks each one for `None` / emptiness, i.e. the extraction result
may leave any of them unset. -/
structure NuevoRescateDetails where
  nombre : Option String := none
  tipo_animal : Option String := none
  edad : Option String := none
  color_de_pelo : Option (List ColorDePelo) := none
  condicion_de_salud_inicial : Option String := none
  ubicacion : Option String := none
  cambio_estado : Option CambioEstadoInfo := none
deriving DecidableEq, Repr

/-- The typed payload carried by `HandlerResult.detalles`; `otherDet`
stands for a value of one of the other per-type pydantic classes (the
`isinstance` guard of a handler rejects it). -/
inductive Detalles
  | nuevoRescate (d : NuevoRescateDetails)
  | otherDet (tag : String)
deriving DecidableEq, Repr

/-- `HandlerResult` (models/analysis.py lines 124-131), restricted to the
fields the embedded flows read. -/
structure HandlerResult where
  ok : Bool := false
  detalles : Option Detalles := none
  campos_faltantes : List String := []
deriving DecidableEq, Repr

/-- `NuevoRescateDetails.dict()`: every field, `None` serialized as null. -/
def nuevoRescateDict (d : NuevoRescateDetails) : FieldBundle :=
  [(("nombre"), match d.nombre with | some v => FieldVal.s v | none => FieldVal.null),
   (("tipo_animal"), match d.tipo_animal with | some v => FieldVal.s v | none => FieldVal.null),
   (("edad"), match d.edad with | some v => FieldVal.s v | none => FieldVal.null),
   (("color_de_pelo"), match d.color_de_pelo with | some v => FieldVal.colorList v | none => FieldVal.null),
   (("condicion_de_salud_inicial"), match d.condicion_de_salud_inicial with | some v => FieldVal.s v | none => FieldVal.null),
   (("ubicacion"), match d.ubicacion with | some v => FieldVal.s v | none => FieldVal.null),
   (("cambio_estado"), match d.cambio_estado with | some v => FieldVal.cambioEstado v | none => FieldVal.null)]

/-- `dict(exclude_none=True)`: the null entries are dropped. -/
def excludeNone (b : FieldBundle) : FieldBundle :=
  b.filter (fun kv => !(kv.2 == FieldVal.null))

/-- `result.detalles.dict()` with the fallbacks of
`ConfirmationManager._save_pending_confirmation` (lines 113-116): a value
without a `.dict` method and a missing value both serialize as `{}`. -/
def detallesDictFull : Option Detalles → FieldBundle
  | some (Detalles.nuevoRescate d) => nuevoRescateDict d
  | some (Detalles.otherDet _) => []
  | none => []

/-- `result.detalles.dict(exclude_none=True)` with the same fallbacks
(used by `send_confirmation_request` lines 145-148 and
`_add_incomplete_request_to_context` lines 470-471 of message_handler.py). -/
def detallesDictExcludeNone : Option Detalles → FieldBundle
  | some (Detalles.nuevoRescate d) => excludeNone (nuevoRescateDict d)
  | some (Detalles.otherDet _) => []
  | none => []

def lookupField (b : FieldBundle) (k : String) : Option FieldVal :=
  (b.find? (fun kv => kv.1 == k)).map (fun kv => kv.2)

/-- Pydantic re-validation of one optional string field:
a missing key falls back to the default `None`, an explicit null is `None`,
a string is kept, any other shape is a `ValidationError`. -/
def readOptStr (b : FieldBundle) (k : String) : Option (Option String) :=
  match lookupField b k with
  | none => some none
  | some FieldVal.null => some none
  | some (FieldVal.s v) => some (some v)
  | some _ => none

def readOptColorList (b : FieldBundle) (k : String) : Option (Option (List ColorDePelo)) :=
  match lookupField b k with
  | none => some none
  | some FieldVal.null => some none
  | some (FieldVal.colorList v) => some (some v)
  | some _ => none

def readOptCambio (b : FieldBundle) (k : String) : Option (Option CambioEstadoInfo) :=
  match lookupField b k with
  | none => some none
  | some FieldVal.null => some none
  | some (FieldVal.cambioEstado v) => some (some v)
  | some _ => none

/-- `NuevoRescateDetails(**detalles_parciales)`: pydantic construction from
the stored generic dictionary; `none` is the `ValidationError` case. -/
def nuevoRescateFromDict (b : FieldBundle) : Option NuevoRescateDetails := do
  let nombre ← readOptStr b (("nombre"))
  let tipoAnimal ← readOptStr b (("tipo_animal"))
  let edad ← readOptStr b (("edad"))
  let colorDePelo ← readOptColorList b (("color_de_pelo"))
  let condicion ← readOptStr b (("condicion_de_salud_inicial"))
  let ubicacion ← readOptStr b (("ubicacion"))
  let cambioEstado ← readOptCambio b (("cambio_estado"))
  pure ⟨nombre, tipoAnimal, edad, colorDePelo, condicion, ubicacion, cambioEstado⟩

/-! ## Postgres entity lookups (`app/services/postgres.py`)

The connection and cursor plumbing is a parameter: the `animales` table
appears as a list of rows. -/

structure Animal where
  id : Nat
  nombre : String
  activo : Bool
deriving DecidableEq, Repr

/-- `PostgresService.check_animal_name_exists` (postgres.py lines 130-145):
`SELECT id FROM animales WHERE lower(nombre) = lower(%s) LIMIT 1`, id or
`None`. `LIMIT 1` without `ORDER BY` is embedded as the first match in row
order. -/
def checkAnimalNameExists (animales : List Animal) (nombre : String) : Option Nat :=
  (animales.find? (fun a => pyLower a.nombre == pyLower nombre)).map (fun a => a.id)

/-- The required-field mapping of `NuevoRescateHandler.validate`
(nuevo_rescate.py lines 36-44), in source order, paired with the missing
test `v is None or (isinstance(v, (list, str)) and not v)` of line 46. -/
def nuevoRescateMissing (d : NuevoRescateDetails) : List String :=
  ((([(("nombre"), (match d.nombre with | none => true | some s => s.isEmpty)),
      (("tipo_animal"), (match d.tipo_animal with | none => true | some s => s.isEmpty)),
      (("edad"), (match d.edad with | none => true | some s => s.isEmpty)),
      (("color_de_pelo"), (match d.color_de_pelo with | none => true | some l => l.isEmpty)),
      (("condicion_de_salud_inicial"), (match d.condicion_de_salud_inicial with | none => true | some s => s.isEmpty)),
      (("ubicacion"), (match d.ubicacion with | none => true | some s => s.isEmpty)),
      (("cambio_estado"), (match d.cambio_estado with | none => true | some _ => false))]
     : List (String × Bool)).filter (fun kv => kv.2)).map (fun kv => kv.1))

/-- The names of the required fields of a new rescue, as
`NuevoRescateHandler.validate` lists them. -/
def nuevoRescateRequiredFieldNames : List String :=
  [("nombre"), ("tipo_animal"), ("edad"), ("color_de_pelo"),
   ("condicion_de_salud_inicial"), ("ubicacion"), ("cambio_estado")]

/-- `NuevoRescateHandler.validate` (nuevo_rescate.py lines 20-50): reject a
non-`NuevoRescateDetails` payload; if the name is set (and a db service is
injected, which the orchestrators always do) and an animal of that name
already exists case-insensitively, fail with the dedicated
`nombre_duplicado` marker; otherwise compute the ordinary missing-field
list and succeed exactly when it is empty. -/
def nuevoRescateValidate (animales : List Animal) (result : HandlerResult) : HandlerResult :=
  match result.detalles with
  | some (Detalles.nuevoRescate d) =>
      if strTruthy d.nombre then
        match checkAnimalNameExists animales (d.nombre.getD ("")) with
        | some _ => { result with ok := false, campos_faltantes := [("nombre_duplicado")] }
        | none =>
            let missing := nuevoRescateMissing d
            { result with campos_faltantes := missing, ok := missing.isEmpty }
      else
        let missing := nuevoRescateMissing d
        { result with campos_faltantes := missing, ok := missing.isEmpty }
  | _ => { result with ok := false, campos_faltantes := [("detalles_invalidos")] }

/-- `NuevoRescateHandler.reconstruct_result` (nuevo_rescate.py lines
125-132): build `NuevoRescateDetails(**detalles_parciales)`, wrap it in a
fresh `HandlerResult` and re-run `validate`; the `except` branch yields the
error result. No caller in the repository invokes this function. -/
def nuevoRescateReconstructResult (animales : List Animal) (b : FieldBundle) : HandlerResult :=
  match nuevoRescateFromDict b with
  | some d =>
      nuevoRescateValidate animales
        { ok := false, detalles := some (Detalles.nuevoRescate d), campos_faltantes := [] }
  | none => { ok := false, detalles := none, campos_faltantes := [("Error al reconstruir datos")] }

/-! ## The durable message window

One row of `whatsapp_messages` stores `json.dumps` of exactly one dict:
either a raw inbound message (`_add_to_conversation`), an
`incomplete_request` dict (`_add_incomplete_request_to_context`) or a
`pending_confirmation` dict (`ConfirmationManager._save_pending_confirmation`).
`StoredRecord` is that parsed dict. -/

inductive StoredRecord
  | message (m : WaMessage)
  | incompleteRequest (tipoSolicitud : String) (detallesParciales : FieldBundle)
      (camposFaltantes : List String) (timestamp : String)
  | pendingConfirmation (tipoSolicitud : String) (detallesParciales : FieldBundle)
      (timestamp : String)
deriving DecidableEq, Repr

/-- The dict `MessageProcessorOrchestrator._check_pending_confirmation`
returns (message_handler.py lines 400-414): note that the `result` slot is
the literal placeholder `None` in both outcomes. -/
structure ConfStatus where
  confirmed : Bool
  tipo : String
  detallesParciales : FieldBundle
  result : Option HandlerResult
deriving DecidableEq, Repr

/-- `MessageProcessorOrchestrator._check_pending_confirmation`
(message_handler.py lines 336-418). The scan keeps the LAST
`incomplete_request` entry; the current text is lower-cased (not stripped)
and each keyword is tested with Python `in`, i.e. substring containment;
a `confirm_yes` / `confirm_no` button reply also counts. When both keyword
sets hit, the confirmed branch wins (it is tested first). -/
def checkPendingConfirmation (phoneInfo : Option (List StoredRecord))
    (currentMessage : WaMessage) : Option ConfStatus :=
  match phoneInfo with
  | none => none
  | some history =>
    if history.isEmpty then none
    else
      let pending := history.foldl
        (fun acc e => match e with
          | StoredRecord.incompleteRequest t d c ts =>
              some (StoredRecord.incompleteRequest t d c ts)
          | _ => acc) none
      match pending with
      | none => none
      | some (StoredRecord.incompleteRequest tipoSolicitud detallesParciales _ _) =>
          let currentText := match currentMessage with
            | WaMessage.text body => pyLower body
            | _ => ("")
          let isConfirmButton := currentMessage = WaMessage.interactive (some ("confirm_yes"))
          let isCancelButton := currentMessage = WaMessage.interactive (some ("confirm_no"))
          let confirmed := isConfirmButton ∨
            confirmacionPalabras.any (fun p => pyContains p currentText)
          let cancelled := isCancelButton ∨
            cancelacionPalabras.any (fun p => pyContains p currentText)
          if ¬confirmed ∧ ¬cancelled then none
          else if confirmed then
            some { confirmed := true, tipo := tipoSolicitud,
                   detallesParciales := detallesParciales, result := none }
          else
            some { confirmed := false, tipo := tipoSolicitud,
                   detallesParciales := detallesParciales, result := none }
      | some _ => none

/-! ## Observable effects of a dispatch cycle

Outbound WhatsApp sends and durable-store writes become constructors of
`Effect`; a dispatch function returns the ordered list of effects it
performs. Pure reads (history fetch, media download, classification and
extraction calls) carry no store mutation; classification is kept as a
marker effect because claim C8 is about what happens after it. -/

def whatsappMessagesTable : String := "whatsapp_messages"

inductive Effect
  | sendMessage (phone text : String)
  | sendConfirmButtons (phone tipo nombreDisplay : String) (shownFields : FieldBundle)
  | sendMissingFieldsPrompt (phone tipo : String) (camposFaltantes : List String)
  | sendCompletionConfirmation (phone tipo : String)
  | insertRecord (table : String) (rec : StoredRecord)
  | deleteRecords (phone table : String)
  | saveToDb (tipo : String) (result : Option HandlerResult)
  | classifyCall
  | handlerFlowInvoked (tipo : String)
deriving DecidableEq, Repr

def Effect.isDbWrite : Effect → Bool
  | Effect.insertRecord _ _ => true
  | Effect.deleteRecords _ _ => true
  | Effect.saveToDb _ _ => true
  | _ => false

def Effect.isDeleteRecords : Effect → Bool
  | Effect.deleteRecords _ _ => true
  | _ => false

def Effect.isSaveToDb : Effect → Bool
  | Effect.saveToDb _ _ => true
  | _ => false

def Effect.isPendingConfirmationWrite : Effect → Bool
  | Effect.insertRecord _ (StoredRecord.pendingConfirmation _ _ _) => true
  | _ => false

def Effect.isIncompleteRequestWrite : Effect → Bool
  | Effect.insertRecord _ (StoredRecord.incompleteRequest _ _ _ _) => true
  | _ => false

def Effect.isMissingFieldsPrompt : Effect → Bool
  | Effect.sendMissingFieldsPrompt _ _ _ => true
  | _ => false

/-- Effects that belong to per-type processing of a message: handler
dispatch, extraction-result persistence, or the prompts a handler flow
emits. -/
def Effect.isHandlerProcessing : Effect → Bool
  | Effect.handlerFlowInvoked _ => true
  | Effect.saveToDb _ _ => true
  | Effect.sendConfirmButtons _ _ _ _ => true
  | Effect.sendMissingFieldsPrompt _ _ _ => true
  | Effect.sendCompletionConfirmation _ _ => true
  | Effect.deleteRecords _ _ => true
  | _ => false

/-- `MessageHandler.send_error_response` (message_handler.py lines
116-124), also the top-level error reply of the old orchestrator. -/
def errorReplyText (msg : String) : String :=
  ("❌ Lo siento, hubo un error procesando tu mensaje:\n") ++ msg ++
  ("\n\nPor favor intenta nuevamente.")

def cancelReplyText : String :=
  "❌ Registro cancelado. ¿Deseas intentar de nuevo o realizar otra solicitud?"

def cannotProcessText : String :=
  "❌ No pude procesar tu solicitud. Intenta de nuevo o contacta a soporte."

def saveFailedText : String := "Error al guardar en la base de datos"

def attributeErrorText : String :=
  "AttributeError: object has no attribute _add_incomplete_request_to_context"

def saveNoneAttributeErrorText : String :=
  "AttributeError: NoneType object has no attribute detalles"

/-! ## Attribute tables

Calling `self.m(...)` in Python resolves `m` against the instance and its
classes; a name bound on neither raises `AttributeError`. These lists
transcribe the attributes bound by the class bodies of
`MessageHandler` (message_handler.py lines 19-208, plus the instance
attributes its `__init__` sets) and `NuevoRescateHandler`
(nuevo_rescate.py lines 12-132). -/

def messageHandlerAttrs : List String :=
  [("version"), ("ai_service"), ("db_service"), ("whatsapp_service"), ("drive_service"),
   ("analyze"), ("validate"), ("save_to_db"), ("send_message"),
   ("delete_records_optimized"), ("send_completion_confirmation"),
   ("request_missing_fields"), ("send_error_response"), ("send_confirmation_request"),
   ("prompt_for_missing"), ("handle_message_flow")]

def nuevoRescateOwnAttrs : List String :=
  [("version"), ("prompt_file"), ("details_class"), ("validate"), ("save_to_db"),
   ("reconstruct_result")]

/-- Attribute lookup on a `NuevoRescateHandler` instance (own class, then
the `MessageHandler` base). -/
def nuevoRescateHandlerAllAttrs : List String :=
  nuevoRescateOwnAttrs ++ messageHandlerAttrs

/-- The `nombre or "Sin nombre"` display of the confirmation prompt
(message_handler.py lines 132-137). -/
def nombreDisplayOf : Option Detalles → String
  | some (Detalles.nuevoRescate d) => if strTruthy d.nombre then d.nombre.getD ("") else ("Sin nombre")
  | _ => ("Sin nombre")

/-- `MessageHandler.send_confirmation_request` (message_handler.py lines
126-175): renders the name display plus every populated field of
`detalles.dict(exclude_none=True)` other than `nombre`, and sends the text
with the `confirm_yes` / `confirm_no` reply buttons. It performs NO
durable-store write. -/
def sendConfirmationRequestEffect (phone tipo : String) (result : HandlerResult) : Effect :=
  Effect.sendConfirmButtons phone tipo (nombreDisplayOf result.detalles)
    ((detallesDictExcludeNone result.detalles).filter (fun kv => !(kv.1 == ("nombre"))))

/-- The outcome of one `handle_message_flow` call. -/
inductive FlowOutcome
  | ok (result : HandlerResult)
  | raised (err : String)
deriving DecidableEq, Repr

/-- `MessageHandler.handle_message_flow` (message_handler.py lines
181-208) for one handler: run `analyze` (its output is the parameter
`analyzed`: the extraction capability is external), run `validate`; on
`result.ok` send the confirmation request — the base-class version, which
writes nothing; otherwise call `self._add_incomplete_request_to_context`
and then `request_missing_fields`. That attribute is looked up in
`handlerAttrs`: it is bound only on the orchestrator class, so on a
handler instance the lookup raises `AttributeError`, the `except` branch
sends the generic error reply and re-raises. -/
def handleMessageFlow (handlerAttrs : List String) (phone tipo nowTs : String)
    (analyzed : HandlerResult) (validateF : HandlerResult → HandlerResult) :
    List Effect × FlowOutcome :=
  let result := validateF analyzed
  if result.ok then
    ([sendConfirmationRequestEffect phone tipo result], FlowOutcome.ok result)
  else if handlerAttrs.contains ("_add_incomplete_request_to_context") then
    ([Effect.insertRecord whatsappMessagesTable
        (StoredRecord.incompleteRequest tipo (detallesDictExcludeNone result.detalles)
          result.campos_faltantes nowTs),
      Effect.sendMissingFieldsPrompt phone tipo result.campos_faltantes],
     FlowOutcome.ok result)
  else
    ([Effect.sendMessage phone (errorReplyText attributeErrorText)],
     FlowOutcome.raised attributeErrorText)

/-- `ConfirmationManager.send_confirmation_request`
(confirmation_manager.py lines 17-32): send the confirmation prompt built
from the handler-formatted fields with the `confirm_yes` / `confirm_no`
buttons, then `_save_pending_confirmation` (lines 110-138) writes one
`pending_confirmation` row holding `result.detalles.dict()` — the FULL
bundle, nulls included. No code in the repository calls this method. -/
def confirmationManagerSendConfirmationRequest (phone tipo : String)
    (result : HandlerResult) (formattedFields : FieldBundle) (ts : String) : List Effect :=
  [Effect.sendConfirmButtons phone tipo
     (match lookupField formattedFields (("nombre")) with
      | some (FieldVal.s v) => v
      | _ => ("Sin nombre"))
     (formattedFields.filter (fun kv => !(kv.1 == ("nombre")))),
   Effect.insertRecord whatsappMessagesTable
     (StoredRecord.pendingConfirmation tipo (detallesDictFull result.detalles) ts)]

/-- `ConfirmationManager.clear_pending_confirmation` deletes via
`delete_records_optimized(phone, "whatsapp_messages")`; the row-level
semantics is `deleteRecordsOptimized` below. As an effect it is: -/
def clearPendingConfirmationEffect (phone : String) : Effect :=
  Effect.deleteRecords phone whatsappMessagesTable

/-! ## The two orchestrators -/

/-- Handler registry of the OLD orchestrator (message_handler.py lines
226-232). -/
def handlersOld : List String :=
  [("NUEVO_RESCATE"), ("GASTO"), ("VISITA_VET"), ("CAMBIO_ESTADO"), ("CONSULTA")]

/-- Handler registry of the NEW orchestrator
(MessageProcessorOrchestrator.py lines 41-48). -/
def handlersNew : List String :=
  [("NUEVO_RESCATE"), ("GASTO"), ("VETERINARIA"), ("CAMBIO_ESTADO"), ("CONSULTA"),
   ("TRACKING_MOVIMIENTO")]

/-- The reply of the new orchestrator when classification yields no type
(MessageProcessorOrchestrator.py lines 75-84). -/
def noTypeReplyText : String :=
  "🤔 No pude identificar qué tipo de información es este mensaje.\n\nPor favor intenta ser más específico sobre:\n• Rescate de un animal\n• Cambio de estado (adopción, tránsito, etc)\n• Visita veterinaria\n• Gasto realizado\n• Salida/regreso de animales"

/-- `save_to_db(result, db)` as the confirmed branch of the old
orchestrator calls it: with `result = None` every handler implementation
dereferences `result.detalles` in its `isinstance` guard and raises
`AttributeError`; with an actual result the write outcome of the database
is the parameter `dbSaveOk`. -/
def saveToDbSem (result : Option HandlerResult) (dbSaveOk : Bool) : Except String Bool :=
  match result with
  | none => Except.error saveNoneAttributeErrorText
  | some _ => Except.ok dbSaveOk

inductive OldOutcome
  | completed
  | raised (err : String)
deriving DecidableEq, Repr

/-- `MessageProcessorOrchestrator.process_message` of message_handler.py
(lines 234-320), the OLD orchestrator. Parameters stand for the external
calls: `phoneHistory` is what `search_phone_in_whatsapp_sheet` returns
AFTER the current message was appended, `classifiedTipo` the result of
`ai_service.classify`, `dbSaveOk` the database outcome of a reached
`save_to_db`. The confirmed branch passes `confirmation_status["result"]`
— always the `None` placeholder — straight to `save_to_db`; its inner
`except` turns the resulting `AttributeError` into an error reply and the
method returns normally. Handler instantiation is embedded as succeeding
(in the source even that raises: the subclass `__init__`s forward a
`confirmation_manager` keyword the old base `__init__` does not accept),
which only makes MORE of the claimed behaviour reachable. -/
def processMessageOld (phone : String) (message : WaMessage)
    (phoneHistory : Option (List StoredRecord)) (classifiedTipo : Option String)
    (dbSaveOk : Bool) : List Effect × OldOutcome :=
  let buffered := [Effect.insertRecord whatsappMessagesTable (StoredRecord.message message)]
  match checkPendingConfirmation phoneHistory message with
  | some status =>
      if status.confirmed then
        if handlersOld.contains status.tipo then
          match saveToDbSem status.result dbSaveOk with
          | Except.error e =>
              (buffered ++ [Effect.saveToDb status.tipo status.result,
                            Effect.sendMessage phone (errorReplyText e)],
               OldOutcome.completed)
          | Except.ok true =>
              (buffered ++ [Effect.saveToDb status.tipo status.result,
                            Effect.sendCompletionConfirmation phone status.tipo,
                            Effect.deleteRecords phone whatsappMessagesTable],
               OldOutcome.completed)
          | Except.ok false =>
              (buffered ++ [Effect.saveToDb status.tipo status.result,
                            Effect.sendMessage phone (errorReplyText saveFailedText)],
               OldOutcome.completed)
        else
          (buffered ++ [Effect.sendMessage phone (errorReplyText (("KeyError: ") ++ status.tipo))],
           OldOutcome.raised (("KeyError: ") ++ status.tipo))
      else
        (buffered ++ [Effect.sendMessage phone cancelReplyText], OldOutcome.completed)
  | none =>
      match classifiedTipo with
      | some tipo =>
          if handlersOld.contains tipo then
            (buffered ++ [Effect.classifyCall, Effect.handlerFlowInvoked tipo],
             OldOutcome.completed)
          else
            (buffered ++ [Effect.classifyCall, Effect.sendMessage phone cannotProcessText],
             OldOutcome.completed)
      | none =>
          (buffered ++ [Effect.classifyCall, Effect.sendMessage phone cannotProcessText],
           OldOutcome.completed)

/-- `MessageProcessorOrchestrator.process_message` of
MessageProcessorOrchestrator.py (lines 50-104), the NEW orchestrator:
buffer the message, fetch the history, build the raw content (reads),
classify ALWAYS, and when `tipos` is empty reply that the message type
could not be identified and stop; otherwise iterate the detected types,
skipping those without a registered handler and delegating each remaining
one to `handler.handle_message_flow`. -/
def processMessageNew (phone : String) (message : WaMessage)
    (classifiedTipos : List String) : List Effect :=
  Effect.insertRecord whatsappMessagesTable (StoredRecord.message message) ::
  Effect.classifyCall ::
  (if classifiedTipos.isEmpty then
    [Effect.sendMessage phone noTypeReplyText]
  else
    classifiedTipos.filterMap (fun tipo =>
      let tipoUpper := pyUpper tipo
      if handlersNew.contains tipoUpper then some (Effect.handlerFlowInvoked tipoUpper)
      else none))

/-! ## Expense allocation (`app/handlers/gasto.py`) -/

/-- One line item of a `GastoDetails` as `GastoHandler` consumes it
(`item.monto`, `item.categoria_id`, `item.descripcion`,
`item.nombre_animal`). The float amount is embedded as an exact rational:
the claimed sum-equality is stated "up to floating rounding", which the
exact arithmetic witnesses. -/
structure GastoItem where
  monto : ℚ := 0
  categoria_id : Option Int := none
  descripcion : Option String := none
  nombre_animal : Option String := none
deriving DecidableEq, Repr

/-- One row of `gasto_animal`: `{"gasto_id": ..., "animal_id": ...,
"monto": ...}` as `_allocate_gasto_to_animals` inserts it. -/
structure AllocationShare where
  gasto_id : Nat
  animal_id : Nat
  monto : ℚ
deriving DecidableEq, Repr

/-- The database state `_allocate_gasto_to_animals` consults: the
`animales` table (for `check_animal_name_exists`) and the id list
`get_animales_activos_en_refugio` returns. -/
structure GastoEnv where
  animales : List Animal := []
  animalesActivosEnRefugio : List Nat := []
deriving Repr

/-- `GastoHandler._allocate_gasto_to_animals` (gasto.py lines 122-172).
CASO 1: a truthy `nombre_animal` takes priority — found by name means one
full-amount share, not found is `False` with no share. CASO 2: a shared
consumable (`categoria_id in [2, 3]`, Alimento / Piedritas) splits
`item.monto / len(animales_activos)` over every active animal; an empty
active list is `False`. CASO 3: anything else allocates nothing and is
`True`. The `insert_record` outcomes are embedded as succeeding: the share
list is exactly the rows inserted. -/
def allocateGastoToAnimals (env : GastoEnv) (gastoId : Nat) (item : GastoItem) :
    List AllocationShare × Bool :=
  if strTruthy item.nombre_animal then
    match checkAnimalNameExists env.animales (item.nombre_animal.getD ("")) with
    | none => ([], false)
    | some animalId => ([{ gasto_id := gastoId, animal_id := animalId, monto := item.monto }], true)
  else if item.categoria_id = some 2 ∨ item.categoria_id = some 3 then
    if env.animalesActivosEnRefugio.isEmpty then ([], false)
    else
      let montoPorAnimal := item.monto / (env.animalesActivosEnRefugio.length : ℚ)
      (env.animalesActivosEnRefugio.map
        (fun aid => { gasto_id := gastoId, animal_id := aid, monto := montoPorAnimal }),
       true)
  else ([], true)

/-! ## The window table (`app/services/postgres.py`) -/

/-- One row of `whatsapp_messages`: the `phone` column, the `timestamp`
column (embedded as seconds on a common clock) and the parsed `messages`
payload (this system writes `json.dumps` of exactly one dict per row, so
the parse step of `search_phone_in_whatsapp_sheet` yields one
`StoredRecord` per row; its list / plain-text fallbacks are unreachable
for rows this code wrote). -/
structure DbRow where
  phone : String
  timestamp : Nat
  payload : StoredRecord
deriving DecidableEq, Repr

/-- `interval '5 minutes'` of the window query. -/
def retentionHorizonSecs : Nat := 300

def rowLE (a b : DbRow) : Prop := a.timestamp ≤ b.timestamp

instance : DecidableRel rowLE := fun a b => Nat.decLe a.timestamp b.timestamp

instance : IsTotal DbRow rowLE := ⟨fun a b => Nat.le_total a.timestamp b.timestamp⟩

instance : IsTrans DbRow rowLE := ⟨fun _ _ _ hab hbc => Nat.le_trans hab hbc⟩

/-- The row set of `SELECT messages FROM whatsapp_messages WHERE phone =
%s AND timestamp >= CURRENT_TIMESTAMP AT TIME ZONE
'America/Argentina/Buenos_Aires' - interval '5 minutes' ORDER BY timestamp
ASC` (postgres.py line 71): filter on phone and the five-minute horizon,
then order by timestamp ascending. -/
def searchPhoneRows (table : List DbRow) (phone : String) (now : Nat) : List DbRow :=
  List.insertionSort rowLE
    (table.filter (fun r => r.phone == phone && decide (now - retentionHorizonSecs ≤ r.timestamp)))

/-- `PostgresService.search_phone_in_whatsapp_sheet` (postgres.py lines
62-111): `None` when the query returns no row, otherwise the parsed
payloads in query order. -/
def searchPhoneInWhatsappSheet (table : List DbRow) (phone : String) (now : Nat) :
    Option (List StoredRecord) :=
  let rows := searchPhoneRows table phone now
  if rows.isEmpty then none
  else some (rows.map (fun r => r.payload))

/-- `PostgresService.delete_records_optimized` (postgres.py lines
113-128): `DELETE FROM <table> WHERE phone = %s` — every row of the
sender goes, whatever its payload. -/
def deleteRecordsOptimized (table : List DbRow) (phone : String) : List DbRow :=
  table.filter (fun r => !(r.phone == phone))

/-- `ConfirmationManager.clear_pending_confirmation` (confirmation_manager.py
lines 140-147) delegates to `delete_records_optimized(phone,
"whatsapp_messages")` — there is no narrower delete. -/
def clearPendingConfirmation (table : List DbRow) (phone : String) : List DbRow :=
  deleteRecordsOptimized table phone

/-! ## Concrete fixtures for the closed theorems -/

def phoneP : String := "5491100000000"

def tipoNR : String := "NUEVO_RESCATE"

def tsX : String := "2025-01-01 10:00:00"

/-- A fully populated new-rescue extraction (the spec scenario: Rocky,
found in Ezeiza). -/
def dFull : NuevoRescateDetails :=
  { nombre := some ("Rocky"), tipo_animal := some ("perro"), edad := some ("6 meses"),
    color_de_pelo := some [{ color := ("negro"), porcentaje := 100 }],
    condicion_de_salud_inicial := some ("desnutrido leve"),
    ubicacion := some ("Ezeiza"),
    cambio_estado := some { ubicacion_id := 1, estado_id := 2, persona := ("Ana"), tipo_relacion_id := 4 } }

/-- The same extraction with the name spelled in another case (collides
case-insensitively with a stored animal named Rocky). -/
def dDup : NuevoRescateDetails := { dFull with nombre := some ("rocky") }

/-- The same extraction with the required `edad` field absent. -/
def dInc : NuevoRescateDetails := { dFull with edad := none }

/-- `HandlerResult` as `analyze` hands it to `validate`. -/
def analyzedOf (d : NuevoRescateDetails) : HandlerResult :=
  { ok := false, detalles := some (Detalles.nuevoRescate d), campos_faltantes := [] }

/-- The `animales` table holding one animal named Rocky. -/
def envDup : List Animal := [{ id := 42, nombre := ("Rocky"), activo := true }]

/-- A stored partial bundle (the populated fields of `dInc`). -/
def bundleC2 : FieldBundle := excludeNone (nuevoRescateDict dInc)

/-- A window holding one `incomplete_request` entry, the shape the old
detector treats as a pending confirmation. -/
def histPending : List StoredRecord :=
  [StoredRecord.incompleteRequest tipoNR bundleC2 [("edad")] tsX]

def env5 : GastoEnv :=
  { animales := [{ id := 1, nombre := ("Rocky"), activo := true }],
    animalesActivosEnRefugio := [10, 20, 30] }

def itemNamed : GastoItem :=
  { monto := 50, categoria_id := some 5, descripcion := some ("vacuna"),
    nombre_animal := some ("rocky") }

def itemFood : GastoItem :=
  { monto := 300, categoria_id := some 2, descripcion := some ("alimento") }

def itemGeneral : GastoItem :=
  { monto := 80, categoria_id := some 6, descripcion := some ("transporte") }

def payload9 : StoredRecord := StoredRecord.message (WaMessage.text ("se llama Rocky"))

def row9 : DbRow := { phone := phoneP, timestamp := 900, payload := payload9 }

/-- A window table with two in-horizon rows of the sender (out of order),
one expired row and one row of another sender (clock: `now = 1000`). -/
def tbl9 : List DbRow :=
  [{ phone := phoneP, timestamp := 100,
     payload := StoredRecord.message (WaMessage.text ("mensaje viejo")) },
   row9,
   { phone := ("5491199999999"), timestamp := 950,
     payload := StoredRecord.message (WaMessage.text ("otro remitente")) },
   { phone := phoneP, timestamp := 800,
     payload := StoredRecord.message (WaMessage.text ("Encontré un perro en Ezeiza")) }]

/-! # Theorems -/

/-- Summing a constant over a mapped list. -/
theorem sum_map_rat_const (l : List Nat) (c : ℚ) :
    (l.map (fun _ => c)).sum = (l.length : ℚ) * c := by
  induction l with
  | nil => simp
  | cons a t ih =>
      simp only [List.map_cons, List.sum_cons, ih, List.length_cons]
      push_cast
      ring

/-- C2 (amended part): `ConfirmationManager._detect_user_response`
classifies a lower-cased, stripped text body as confirmed (resp.
cancelled) exactly when it equals a keyword of the closed affirmative
(resp. negative) set or starts with one followed by a space — with the
affirmative test taking precedence — a button reply with the reserved id
is authoritative, and a body that only contains a keyword mid-sentence is
not classified. -/
theorem detect_user_response_keyword_rule :
    ∀ body : String,
      (detectUserResponse (WaMessage.text body) = some UserResponse.confirmed ↔
        matchesKeyword confirmacionPalabras (pyNormalize body) = true)
      ∧ (detectUserResponse (WaMessage.text body) = some UserResponse.cancelled ↔
        (matchesKeyword confirmacionPalabras (pyNormalize body) = false ∧
         matchesKeyword cancelacionPalabras (pyNormalize body) = true))
      ∧ detectUserResponse (WaMessage.interactive (some ("confirm_yes"))) = some UserResponse.confirmed
      ∧ detectUserResponse (WaMessage.interactive (some ("confirm_no"))) = some UserResponse.cancelled
      ∧ detectUserResponse (WaMessage.text ("avisame si llega")) = none := by
  intro body
  refine ⟨?_, ?_, by decide, by decide, by decide⟩
  · simp only [detectUserResponse]
    cases h1 : matchesKeyword confirmacionPalabras (pyNormalize body) <;>
      cases h2 : matchesKeyword cancelacionPalabras (pyNormalize body) <;>
      simp [h1, h2]
  · simp only [detectUserResponse]
    cases h1 : matchesKeyword confirmacionPalabras (pyNormalize body) <;>
      cases h2 : matchesKeyword cancelacionPalabras (pyNormalize body) <;>
      simp [h1, h2]

/-- C2 (counterexample): while a pending request exists, the detector the
old orchestrator actually wires — `_check_pending_confirmation`, which
tests keywords with Python substring containment — classifies the
unrelated text "Buenos dias" as a cancellation (the keyword "no" occurs
inside the word "Buenos"), although the body neither equals nor starts
with any keyword of either closed set. -/
theorem check_pending_confirmation_substring_misfire :
    checkPendingConfirmation (some histPending) (WaMessage.text ("Buenos dias")) =
      some { confirmed := false, tipo := tipoNR, detallesParciales := bundleC2, result := none }
    ∧ matchesKeyword confirmacionPalabras (pyNormalize ("Buenos dias")) = false
    ∧ matchesKeyword cancelacionPalabras (pyNormalize ("Buenos dias")) = false
    ∧ detectUserResponse (WaMessage.text ("Buenos dias")) = none := by
  decide

/-- C1: when validation succeeds, `handle_message_flow` only sends the
confirmation prompt rendering the populated fields — it performs no
persistence and reaches no `save_to_db` — but it also writes NOTHING to
the durable store: the `pending_confirmation` row with the full bundle is
written only by `ConfirmationManager.send_confirmation_request`, which the
flow never invokes (the base-class `send_confirmation_request` it calls
does not persist). -/
theorem nuevoRescate_ok_flow_sends_prompt_without_pending_write :
    (nuevoRescateValidate [] (analyzedOf dFull)).ok = true
    ∧ handleMessageFlow nuevoRescateHandlerAllAttrs phoneP tipoNR tsX (analyzedOf dFull)
        (nuevoRescateValidate []) =
      ([sendConfirmationRequestEffect phoneP tipoNR (nuevoRescateValidate [] (analyzedOf dFull))],
       FlowOutcome.ok (nuevoRescateValidate [] (analyzedOf dFull)))
    ∧ sendConfirmationRequestEffect phoneP tipoNR (nuevoRescateValidate [] (analyzedOf dFull)) =
      Effect.sendConfirmButtons phoneP tipoNR ("Rocky")
        [(("tipo_animal"), FieldVal.s ("perro")),
         (("edad"), FieldVal.s ("6 meses")),
         (("color_de_pelo"), FieldVal.colorList [{ color := ("negro"), porcentaje := 100 }]),
         (("condicion_de_salud_inicial"), FieldVal.s ("desnutrido leve")),
         (("ubicacion"), FieldVal.s ("Ezeiza")),
         (("cambio_estado"), FieldVal.cambioEstado
            { ubicacion_id := 1, estado_id := 2, persona := ("Ana"), tipo_relacion_id := 4 })]
    ∧ ((handleMessageFlow nuevoRescateHandlerAllAttrs phoneP tipoNR tsX (analyzedOf dFull)
         (nuevoRescateValidate [])).1.all (fun e => !(e.isDbWrite))) = true
    ∧ ((confirmationManagerSendConfirmationRequest phoneP tipoNR
         (nuevoRescateValidate [] (analyzedOf dFull)) (nuevoRescateDict dFull) tsX).any
        (fun e => e.isPendingConfirmationWrite)) = true := by
  decide

/-- C3: on a detected confirmation, the old orchestrator passes the stored
`None` placeholder — not a reconstructed typed bundle — to `save_to_db`,
which therefore fails with an `AttributeError` that becomes a generic
error reply; `NuevoRescateHandler.reconstruct_result`, which DOES rebuild
a bundle field-for-field equal to the serialized one, is never invoked by
any caller. -/
theorem confirmed_branch_saves_none_without_reconstruction :
    checkPendingConfirmation (some histPending) (WaMessage.text ("si")) =
      some { confirmed := true, tipo := tipoNR, detallesParciales := bundleC2, result := none }
    ∧ processMessageOld phoneP (WaMessage.text ("si")) (some histPending) none true =
      ([Effect.insertRecord whatsappMessagesTable (StoredRecord.message (WaMessage.text ("si"))),
        Effect.saveToDb tipoNR none,
        Effect.sendMessage phoneP (errorReplyText saveNoneAttributeErrorText)],
       OldOutcome.completed)
    ∧ nuevoRescateFromDict (nuevoRescateDict dFull) = some dFull
    ∧ nuevoRescateReconstructResult [] (nuevoRescateDict dFull) =
      { ok := true, detalles := some (Detalles.nuevoRescate dFull), campos_faltantes := [] } := by
  decide

/-- C4: on a detected cancellation the old orchestrator sends the
cancellation acknowledgement and persists nothing — but it never clears
the pending state (no delete reaches the store), so the stale entry
re-matches a later unrelated message ("vino ayer" is classified as a
cancellation of the same stale bundle because "no" occurs inside
"vino"). -/
theorem cancel_branch_acknowledges_but_never_clears :
    checkPendingConfirmation (some histPending) (WaMessage.text ("no")) =
      some { confirmed := false, tipo := tipoNR, detallesParciales := bundleC2, result := none }
    ∧ processMessageOld phoneP (WaMessage.text ("no")) (some histPending) none true =
      ([Effect.insertRecord whatsappMessagesTable (StoredRecord.message (WaMessage.text ("no"))),
        Effect.sendMessage phoneP cancelReplyText],
       OldOutcome.completed)
    ∧ ((processMessageOld phoneP (WaMessage.text ("no")) (some histPending) none true).1.all
        (fun e => !(e.isDeleteRecords || e.isSaveToDb))) = true
    ∧ checkPendingConfirmation
        (some (histPending ++ [StoredRecord.message (WaMessage.text ("no")),
                               StoredRecord.message (WaMessage.text ("vino ayer"))]))
        (WaMessage.text ("vino ayer")) =
      some { confirmed := false, tipo := tipoNR, detallesParciales := bundleC2, result := none } := by
  decide

/-- C5: `_allocate_gasto_to_animals` takes exactly one of three mutually
exclusive branches in priority order. A line item naming an animal that is
found produces exactly one full-amount share; a shared-consumable item
(categoria 2 or 3) with a non-empty active set produces one share per
active animal of `monto / count` — the shares sum exactly to the item
amount — while an empty active set is the reported failure `false`; any
other item produces zero shares and succeeds. -/
theorem allocate_gasto_three_exclusive_branches :
    ∀ (env : GastoEnv) (gastoId : Nat) (item : GastoItem),
      (∀ animalId : Nat, strTruthy item.nombre_animal = true →
        checkAnimalNameExists env.animales (item.nombre_animal.getD ("")) = some animalId →
        allocateGastoToAnimals env gastoId item =
          ([{ gasto_id := gastoId, animal_id := animalId, monto := item.monto }], true))
      ∧ (strTruthy item.nombre_animal = false →
         (item.categoria_id = some 2 ∨ item.categoria_id = some 3) →
         env.animalesActivosEnRefugio ≠ [] →
           (allocateGastoToAnimals env gastoId item).2 = true
           ∧ (allocateGastoToAnimals env gastoId item).1.length =
               env.animalesActivosEnRefugio.length
           ∧ ((allocateGastoToAnimals env gastoId item).1.map AllocationShare.monto).sum =
               item.monto)
      ∧ (strTruthy item.nombre_animal = false →
         (item.categoria_id = some 2 ∨ item.categoria_id = some 3) →
         env.animalesActivosEnRefugio = [] →
         allocateGastoToAnimals env gastoId item = ([], false))
      ∧ (strTruthy item.nombre_animal = false →
         ¬(item.categoria_id = some 2 ∨ item.categoria_id = some 3) →
         allocateGastoToAnimals env gastoId item = ([], true)) := by
  intro env gastoId item
  refine ⟨?_, ?_, ?_, ?_⟩
  · intro animalId hname hfound
    simp [allocateGastoToAnimals, hname, hfound]
  · intro hname hcat hne
    have hempty : env.animalesActivosEnRefugio.isEmpty = false := by
      cases h : env.animalesActivosEnRefugio with
      | nil => exact absurd h hne
      | cons a t => simp [h]
    have hlen : (env.animalesActivosEnRefugio.length : ℚ) ≠ 0 := by
      exact_mod_cast Nat.pos_iff_ne_zero.mp (List.length_pos.mpr hne)
    refine ⟨?_, ?_, ?_⟩
    · simp [allocateGastoToAnimals, hname, hcat, hempty]
    · simp [allocateGastoToAnimals, hname, hcat, hempty]
    · simp only [allocateGastoToAnimals, hname, Bool.false_eq_true, if_false,
        if_pos hcat, hempty]
      rw [List.map_map]
      have : (AllocationShare.monto ∘ fun aid =>
          ({ gasto_id := gastoId, animal_id := aid,
             monto := item.monto / (env.animalesActivosEnRefugio.length : ℚ) } :
            AllocationShare)) =
          (fun _ => item.monto / (env.animalesActivosEnRefugio.length : ℚ)) := rfl
      rw [this, sum_map_rat_const, mul_comm, div_mul_cancel₀ item.monto hlen]
  · intro hname hcat hnil
    simp [allocateGastoToAnimals, hname, hcat, hnil]
  · intro hname hcat
    simp [allocateGastoToAnimals, hname, hcat]

/-- C5 (witness): the three branches at concrete inputs — a named vacuna
item gives Rocky one 50-peso share; a 300-peso food item over three active
animals gives three shares summing to 300; the food item with no active
animal fails; a transporte item allocates nothing and succeeds. -/
theorem allocate_gasto_three_exclusive_branches_witness :
    allocateGastoToAnimals env5 7 itemNamed =
      ([{ gasto_id := 7, animal_id := 1, monto := 50 }], true)
    ∧ (allocateGastoToAnimals env5 8 itemFood).1.length = 3
    ∧ ((allocateGastoToAnimals env5 8 itemFood).1.map AllocationShare.monto).sum = 300
    ∧ allocateGastoToAnimals { animales := [], animalesActivosEnRefugio := [] } 9 itemFood =
      ([], false)
    ∧ allocateGastoToAnimals env5 10 itemGeneral = ([], true) := by
  have h1 := (allocate_gasto_three_exclusive_branches env5 7 itemNamed).1 1
    (by decide) (by decide)
  have h2 := (allocate_gasto_three_exclusive_branches env5 8 itemFood).2.1
    (by decide) (Or.inl rfl) (by decide)
  have h3 := (allocate_gasto_three_exclusive_branches
    { animales := [], animalesActivosEnRefugio := [] } 9 itemFood).2.2.1
    (by decide) (Or.inl rfl) rfl
  have h4 := (allocate_gasto_three_exclusive_branches env5 10 itemGeneral).2.2.2
    (by decide) (by decide)
  exact ⟨h1, h2.2.1, h2.2.2, h3, h4⟩

set_option maxRecDepth 8192 in
/-- C6: on a case-insensitive name collision, validation does fail with
the dedicated `nombre_duplicado` marker (distinct from every ordinary
required-field name) — but the dispatch flow neither notifies the sender
that the name exists nor purges the window: the validation-failure branch
of `handle_message_flow` immediately dies on the missing
`_add_incomplete_request_to_context` attribute, so the only send is the
generic error reply and no delete is ever issued. -/
theorem duplicate_name_marker_but_no_notification_or_purge :
    checkAnimalNameExists envDup ("rocky") = some 42
    ∧ nuevoRescateValidate envDup (analyzedOf dDup) =
      { ok := false, detalles := some (Detalles.nuevoRescate dDup),
        campos_faltantes := [("nombre_duplicado")] }
    ∧ nuevoRescateRequiredFieldNames.contains ("nombre_duplicado") = false
    ∧ handleMessageFlow nuevoRescateHandlerAllAttrs phoneP tipoNR tsX (analyzedOf dDup)
        (nuevoRescateValidate envDup) =
      ([Effect.sendMessage phoneP (errorReplyText attributeErrorText)],
       FlowOutcome.raised attributeErrorText)
    ∧ ((handleMessageFlow nuevoRescateHandlerAllAttrs phoneP tipoNR tsX (analyzedOf dDup)
         (nuevoRescateValidate envDup)).1.all
        (fun e => !(e.isDeleteRecords || e.isIncompleteRequestWrite))) = true := by
  decide

set_option maxRecDepth 8192 in
/-- C7: on ordinary incompleteness the flow is supposed to store an
`incomplete_request` row and prompt for the missing fields, but
`_add_incomplete_request_to_context` is bound on the orchestrator class,
not on the handler or its base, so the branch raises `AttributeError`:
nothing is written, no missing-fields prompt is sent, and the call
re-raises after a generic error reply. Had the attribute resolved, the
branch would have produced exactly the record (type, partial bundle,
missing list, timestamp) and the prompt the claim describes. -/
theorem incomplete_branch_raises_attribute_error :
    (nuevoRescateValidate [] (analyzedOf dInc)).ok = false
    ∧ (nuevoRescateValidate [] (analyzedOf dInc)).campos_faltantes = [("edad")]
    ∧ nuevoRescateHandlerAllAttrs.contains (("_add_incomplete_request_to_context")) = false
    ∧ handleMessageFlow nuevoRescateHandlerAllAttrs phoneP tipoNR tsX (analyzedOf dInc)
        (nuevoRescateValidate []) =
      ([Effect.sendMessage phoneP (errorReplyText attributeErrorText)],
       FlowOutcome.raised attributeErrorText)
    ∧ ((handleMessageFlow nuevoRescateHandlerAllAttrs phoneP tipoNR tsX (analyzedOf dInc)
         (nuevoRescateValidate [])).1.all
        (fun e => !(e.isIncompleteRequestWrite || e.isMissingFieldsPrompt))) = true
    ∧ handleMessageFlow
        (nuevoRescateHandlerAllAttrs ++ [("_add_incomplete_request_to_context")])
        phoneP tipoNR tsX (analyzedOf dInc) (nuevoRescateValidate []) =
      ([Effect.insertRecord whatsappMessagesTable
          (StoredRecord.incompleteRequest tipoNR (excludeNone (nuevoRescateDict dInc))
            [("edad")] tsX),
        Effect.sendMissingFieldsPrompt phoneP tipoNR [("edad")]],
       FlowOutcome.ok (nuevoRescateValidate [] (analyzedOf dInc))) := by
  decide

/-- C8: when classification returns zero candidate types, the new
orchestrator buffers the message, classifies, sends the
could-not-determine reply and stops — its trace contains no handler
invocation, no persistence and no handler prompt of any kind. -/
theorem process_message_new_zero_types_terminal :
    ∀ (phone : String) (message : WaMessage),
      processMessageNew phone message [] =
        [Effect.insertRecord whatsappMessagesTable (StoredRecord.message message),
         Effect.classifyCall,
         Effect.sendMessage phone noTypeReplyText]
      ∧ ((processMessageNew phone message []).all (fun e => !(e.isHandlerProcessing))) = true := by
  intro phone message
  exact ⟨rfl, rfl⟩

/-- C9: the window read returns only rows of the sender whose timestamp
lies within the five-minute retention horizon — rows older than the
horizon are excluded even though they are still stored — ordered oldest
first, and `search_phone_in_whatsapp_sheet` returns exactly their parsed
payloads (or `None` when no row qualifies). -/
theorem search_phone_window_horizon_and_order :
    ∀ (table : List DbRow) (phone : String) (now : Nat),
      (∀ r : DbRow, r ∈ searchPhoneRows table phone now →
        r.phone = phone ∧ now - retentionHorizonSecs ≤ r.timestamp)
      ∧ List.Sorted rowLE (searchPhoneRows table phone now)
      ∧ (∀ r : DbRow, r.timestamp < now - retentionHorizonSecs →
          r ∉ searchPhoneRows table phone now)
      ∧ searchPhoneInWhatsappSheet table phone now =
          (if (searchPhoneRows table phone now).isEmpty then none
           else some ((searchPhoneRows table phone now).map (fun r => r.payload))) := by
  intro table phone now
  refine ⟨?_, ?_, ?_, rfl⟩
  · intro r hr
    rw [searchPhoneRows, List.mem_insertionSort] at hr
    have h2 := (List.mem_filter.mp hr).2
    rw [Bool.and_eq_true] at h2
    exact ⟨by simpa using h2.1, of_decide_eq_true h2.2⟩
  · exact List.sorted_insertionSort rowLE _
  · intro r hlt hr
    rw [searchPhoneRows, List.mem_insertionSort] at hr
    have h2 := (List.mem_filter.mp hr).2
    rw [Bool.and_eq_true] at h2
    have := of_decide_eq_true h2.2
    omega

/-- C9 (witness): on the concrete table `tbl9` at clock 1000, the returned
window is sorted and the in-horizon row `row9` satisfies the horizon
bound. -/
theorem search_phone_window_horizon_and_order_witness :
    (row9.phone = phoneP ∧ 1000 - retentionHorizonSecs ≤ row9.timestamp)
    ∧ List.Sorted rowLE (searchPhoneRows tbl9 phoneP 1000) := by
  refine ⟨(search_phone_window_horizon_and_order tbl9 phoneP 1000).1 row9 (by decide), ?_⟩
  exact (search_phone_window_horizon_and_order tbl9 phoneP 1000).2.1

/-- C10: `delete_records_optimized` removes every row of the sender from
the window table — ordinary messages, incomplete requests and pending
confirmations alike, whatever the payload — so after a clear the window
read returns `None` for that sender; and
`ConfirmationManager.clear_pending_confirmation` IS that whole-window
delete, with no narrower variant. -/
theorem delete_records_erases_entire_window :
    ∀ (table : List DbRow) (phone : String),
      (∀ r : DbRow, r ∈ deleteRecordsOptimized table phone ↔ (r ∈ table ∧ r.phone ≠ phone))
      ∧ (∀ now : Nat, searchPhoneInWhatsappSheet (deleteRecordsOptimized table phone) phone now = none)
      ∧ clearPendingConfirmation table phone = deleteRecordsOptimized table phone := by
  intro table phone
  refine ⟨?_, ?_, rfl⟩
  · intro r
    rw [deleteRecordsOptimized, List.mem_filter]
    constructor
    · rintro ⟨h1, h2⟩
      refine ⟨h1, ?_⟩
      simpa using h2
    · rintro ⟨h1, h2⟩
      refine ⟨h1, ?_⟩
      simpa using h2
  · intro now
    have hnil : searchPhoneRows (deleteRecordsOptimized table phone) phone now = [] := by
      rw [searchPhoneRows, deleteRecordsOptimized, List.filter_filter]
      have hfalse : ∀ r : DbRow,
          ((r.phone == phone && decide (now - retentionHorizonSecs ≤ r.timestamp)) &&
            !(r.phone == phone)) = false := by
        intro r
        cases h : r.phone == phone <;> simp [h]
      rw [List.filter_eq_nil_iff.mpr (fun a _ => by rw [hfalse a]; simp)]
      rfl
    simp [searchPhoneInWhatsappSheet, hnil]

end Rescataditos
